import Mathlib

/-!
# moving_triangles: matrices, vertex buffer and shader checks

A shallow embedding of `src/bin/moving_triangles.cpp`.

* A `float m[16]` is a `List α`; every element access is bounds checked, an access
  outside the array makes the whole computation `none`.
* The matrix constructors are stated over an arbitrary field `α` (exact arithmetic).
  `multiplyMatrices` uses only the zero, the sum and the product of `α`, so it runs both
  over a field and over `F32`, the binary32 values with every operation rounded.
* `cos`, `sin` and `tan` of `<math.h>` are taken as parameters (`Libm`).
* The `vertices` literal is a `List ℚ` holding the decimal values as written.
* `main` is a function of the answers of the windowing and graphics libraries
  (`Driver`) to the list of calls and standard-error lines it produces.
-/

namespace MovingTriangles

/-! ## Arrays and loops -/

/-- The three functions of `<math.h>` the program calls. -/
structure Libm (α : Type) where
  cos : α → α
  sin : α → α
  tan : α → α

/-- Assignment `m[i] = v`; `none` when `i` is outside the array. -/
def store {α : Type} (m : List α) (i : Nat) (v : α) : Option (List α) :=
  if i < m.length then some (m.set i v) else none

/-- A run of assignments `m[i] = v`, in the order written. -/
def storeAll {α : Type} : List α → List (Nat × α) → Option (List α)
  | m, [] => some m
  | m, (i, v) :: rest => (store m i v).bind (fun m => storeAll m rest)

/-- Read of `m[i]`; `none` when `i` is outside the array. -/
def load {α : Type} (m : List α) (i : Nat) : Option α :=
  m[i]?

/-- The loop `for (; i < bound; i++) body`, started at `i` with `fuel` iterations
allowed; `none` when the fuel runs out before the loop condition fails. -/
def forLoop {σ : Type} (bound : Nat) (body : Nat → σ → Option σ) :
    Nat → Nat → σ → Option σ
  | 0, i, st => if i < bound then none else some st
  | fuel + 1, i, st =>
    if i < bound then (body i st).bind (forLoop bound body fuel (i + 1)) else some st

/-- The loop `for (int i = 0; i < bound; i++) body`. -/
def forRange {σ : Type} (bound : Nat) (body : Nat → σ → Option σ) (st : σ) : Option σ :=
  forLoop bound body bound 0 st

/-! ## Matrix constructors (lines 67-146) -/

/-- Function `createRotationMatrixY(angle, matrix)`: the sixteen assignments in source
order, with `c = cos(angle)` and `s = sin(angle)`. -/
def createRotationMatrixY {α : Type} [Field α] (L : Libm α) (angle : α) (matrix : List α) :
    Option (List α) :=
  let c := L.cos angle
  let s := L.sin angle
  storeAll matrix [
    (0, c), (4, 0), (8, s), (12, 0),
    (1, 0), (5, 1), (9, 0), (13, 0),
    (2, -s), (6, 0), (10, c), (14, 0),
    (3, 0), (7, 0), (11, 0), (15, 1)]

/-- Function `createPerspectiveMatrix(fov, aspect, nearZ, farZ, matrix)`. -/
def createPerspectiveMatrix {α : Type} [Field α] (L : Libm α) (fov aspect nearZ farZ : α)
    (matrix : List α) : Option (List α) :=
  let tanHalfFov := L.tan (fov / 2)
  storeAll matrix [
    (0, 1 / (aspect * tanHalfFov)), (4, 0), (8, 0), (12, 0),
    (1, 0), (5, 1 / tanHalfFov), (9, 0), (13, 0),
    (2, 0), (6, 0), (10, -(farZ + nearZ) / (farZ - nearZ)),
    (14, -2 * farZ * nearZ / (farZ - nearZ)),
    (3, 0), (7, 0), (11, -1), (15, 0)]

/-- Function `createViewMatrix(eyeX, eyeY, eyeZ, matrix)`. -/
def createViewMatrix {α : Type} [Field α] (eyeX eyeY eyeZ : α) (matrix : List α) :
    Option (List α) :=
  storeAll matrix [
    (0, 1), (4, 0), (8, 0), (12, -eyeX),
    (1, 0), (5, 1), (9, 0), (13, -eyeY),
    (2, 0), (6, 0), (10, 1), (14, -eyeZ),
    (3, 0), (7, 0), (11, 0), (15, 1)]

/-- Function `createTranslationMatrix(x, y, z, matrix)`. -/
def createTranslationMatrix {α : Type} [Field α] (x y z : α) (matrix : List α) :
    Option (List α) :=
  storeAll matrix [
    (0, 1), (4, 0), (8, 0), (12, x),
    (1, 0), (5, 1), (9, 0), (13, y),
    (2, 0), (6, 0), (10, 1), (14, z),
    (3, 0), (7, 0), (11, 0), (15, 1)]

/-! ## Matrix product (lines 148-158) -/

/-- Body of the innermost loop: `result[i + j * 4] += a[i + k * 4] * b[k + j * 4]`. -/
def accumulate {α : Type} [Add α] [Mul α] (a b : List α) (i j k : Nat)
    (result : List α) : Option (List α) := do
  let r ← load result (i + j * 4)
  let x ← load a (i + k * 4)
  let y ← load b (k + j * 4)
  store result (i + j * 4) (r + x * y)

/-- Body of the `j` loop: `result[i + j * 4] = 0` followed by the `k` loop. -/
def cell {α : Type} [Zero α] [Add α] [Mul α] (a b : List α) (i j : Nat)
    (result : List α) : Option (List α) := do
  let result ← store result (i + j * 4) 0
  forRange 4 (accumulate a b i j) result

/-- Function `multiplyMatrices(a, b, result)`; the argument `result` is the content of the
output array before the call. The sum and the product are those of the element type: exact
in a field, rounded at every operation for `F32`. -/
def multiplyMatrices {α : Type} [Zero α] [Add α] [Mul α] (a b result : List α) :
    Option (List α) :=
  forRange 4 (fun i result => forRange 4 (fun j result => cell a b i j result) result) result

/-! ## Reading matrices -/

/-- Entry `i` of an array, `0` outside it. -/
def entry {α : Type} [Zero α] (m : List α) (i : Nat) : α :=
  m.getD i 0

/-- The accumulated value of one cell: the running sum starts at `0` and adds the
four products in the order of the `k` loop. -/
def rowCol {α : Type} [Zero α] [Add α] [Mul α] (a b : List α) (i j : Nat) : α :=
  0 + entry a i * entry b (j * 4) + entry a (i + 4) * entry b (1 + j * 4)
    + entry a (i + 8) * entry b (2 + j * 4) + entry a (i + 12) * entry b (3 + j * 4)

/-- The 4x4 identity matrix, column-major. -/
def identity {α : Type} [Field α] : List α :=
  [1, 0, 0, 0, 0, 1, 0, 0, 0, 0, 1, 0, 0, 0, 0, 1]

/-- Transpose of a column-major 4x4 matrix: entry `i + 4 * j` becomes entry `j + 4 * i`. -/
def transpose {α : Type} [Field α] (m : List α) : List α :=
  (List.range 16).map (fun p => entry m (p / 4 + 4 * (p % 4)))

/-- The product `m * vec4(x, y, z, w)` of the vertex shader (lines 23-24) for a matrix
uploaded column-major (`glUniformMatrix4fv` with transpose `GL_FALSE`). -/
def transformPoint {α : Type} [Field α] (m : List α) (v : α × α × α × α) : α × α × α × α :=
  (entry m 0 * v.1 + entry m 4 * v.2.1 + entry m 8 * v.2.2.1 + entry m 12 * v.2.2.2,
   entry m 1 * v.1 + entry m 5 * v.2.1 + entry m 9 * v.2.2.1 + entry m 13 * v.2.2.2,
   entry m 2 * v.1 + entry m 6 * v.2.1 + entry m 10 * v.2.2.1 + entry m 14 * v.2.2.2,
   entry m 3 * v.1 + entry m 7 * v.2.1 + entry m 11 * v.2.2.1 + entry m 15 * v.2.2.2)

/-! ## Arithmetic of `float` -/

/-- Values of a `float` (IEEE 754 binary32): a finite number, held as the rational it
denotes (the two zeros are one value), or a non-finite value (an infinity or a NaN). -/
inductive F32 where
  | finite (value : ℚ)
  | nonFinite
  deriving DecidableEq

/-- Largest finite binary32 number, `(2^24 - 1) * 2^104`. -/
def maxF32 : ℚ := (2 ^ 24 - 1) * 2 ^ 104

/-- Nearest integer, a tie going to the even one. -/
def roundHalfEven (x : ℚ) : ℤ :=
  if x - ⌊x⌋ < 1 / 2 then ⌊x⌋
  else if 1 / 2 < x - ⌊x⌋ then ⌊x⌋ + 1
  else if ⌊x⌋ % 2 = 0 then ⌊x⌋ else ⌊x⌋ + 1

/-- Spacing of the binary32 numbers around `x`: `2^(e - 23)` when `2^e ≤ |x| < 2^(e + 1)`
(24 significant bits), and `2^(-149)` for `|x| < 2^(-126)` (subnormal range). -/
def ulp (x : ℚ) : ℚ :=
  (2 : ℚ) ^ (max (Int.log 2 |x|) (-126) - 23)

/-- Rounding of an exact result to binary32: round to nearest, ties to even; a rounded
value beyond `maxF32` overflows to a non-finite value. -/
def roundF32 (x : ℚ) : F32 :=
  if |(roundHalfEven (x / ulp x) : ℚ) * ulp x| ≤ maxF32 then
    F32.finite (roundHalfEven (x / ulp x) * ulp x)
  else F32.nonFinite

/-- Sum of two `float`s: the exact sum, rounded; a non-finite operand gives a non-finite
result. -/
def F32.add : F32 → F32 → F32
  | F32.finite x, F32.finite y => roundF32 (x + y)
  | _, _ => F32.nonFinite

/-- Product of two `float`s: the exact product, rounded (each operation is rounded on its
own, no fused multiply-add); a non-finite operand gives a non-finite result. -/
def F32.mul : F32 → F32 → F32
  | F32.finite x, F32.finite y => roundF32 (x * y)
  | _, _ => F32.nonFinite

instance instZeroF32 : Zero F32 := ⟨F32.finite 0⟩

instance instAddF32 : Add F32 := ⟨F32.add⟩

instance instMulF32 : Mul F32 := ⟨F32.mul⟩

/-- An array of finite `float`s given by their values. -/
def floats (m : List ℚ) : List F32 :=
  m.map F32.finite

/-! ## Per-frame transforms of `main` (lines 339-379) -/

/-- The sequence `createTranslationMatrix; createRotationMatrixY; multiplyMatrices`
that `main` runs for each pyramid; `tBuf`, `rBuf` and `outBuf` are the contents of the
three local arrays before they are written. -/
def modelTransform {α : Type} [Field α] (L : Libm α) (x y z angle : α)
    (tBuf rBuf outBuf : List α) : Option (List α) := do
  let translationMatrix ← createTranslationMatrix x y z tBuf
  let rotationMatrix ← createRotationMatrixY L angle rBuf
  multiplyMatrices translationMatrix rotationMatrix outBuf

/-- The translation `(orbitX, 0.0f, orbitZ)` of the second pyramid (lines 361-368). -/
def orbitOffset {α : Type} [Field α] (L : Libm α) (timeValue : α) : α × α × α :=
  let orbitRadius : α := 4
  let orbitX := L.sin timeValue * orbitRadius
  let orbitZ := L.sin timeValue * orbitRadius
  (orbitX, 0, orbitZ)

/-- Model matrix of the first pyramid (line 351). -/
def transform {α : Type} [Field α] (L : Libm α) (timeValue : α)
    (tBuf rBuf outBuf : List α) : Option (List α) :=
  modelTransform L 0 0 (-5) timeValue tBuf rBuf outBuf

/-- Model matrix of the second pyramid (line 376). -/
def transform2 {α : Type} [Field α] (L : Libm α) (timeValue : α)
    (tBuf rBuf outBuf : List α) : Option (List α) :=
  modelTransform L (orbitOffset L timeValue).1 (orbitOffset L timeValue).2.1
    (orbitOffset L timeValue).2.2 (timeValue * 1.5) tBuf rBuf outBuf

/-! ## Vertex buffer (lines 183-225 and 279-291) -/

/-- The array `vertices`: nine floats per vertex (position, colour, normal), written with
the decimal values of the source literals. -/
def vertices : List ℚ := [
  -- Tetrahedron 1
  -- Face 1
  -0.5, -0.5, 0.0, 1.0, 0.0, 0.0, 0.0, 0.0, 1.0,
  0.5, -0.5, 0.0, 0.0, 1.0, 0.0, 0.0, 0.0, 1.0,
  0.0, 0.5, 0.0, 0.0, 0.0, 1.0, 0.0, 0.0, 1.0,
  -- Face 2
  -0.5, -0.5, 0.0, 1.0, 0.0, 0.0, -0.5, -0.5, -0.5,
  0.5, -0.5, 0.0, 0.0, 1.0, 0.0, -0.5, -0.5, -0.5,
  0.0, 0.0, -0.5, 1.0, 1.0, 1.0, -0.5, -0.5, -0.5,
  -- Face 3
  0.5, -0.5, 0.0, 0.0, 1.0, 0.0, 0.5, 0.0, -0.5,
  0.0, 0.5, 0.0, 0.0, 0.0, 1.0, 0.5, 0.0, -0.5,
  0.0, 0.0, -0.5, 1.0, 1.0, 1.0, 0.5, 0.0, -0.5,
  -- Face 4
  0.0, 0.5, 0.0, 0.0, 0.0, 1.0, 0.0, 0.5, -0.5,
  -0.5, -0.5, 0.0, 1.0, 0.0, 0.0, 0.0, 0.5, -0.5,
  0.0, 0.0, -0.5, 1.0, 1.0, 1.0, 0.0, 0.5, -0.5,
  -- Tetrahedron 2 (offset to be visible)
  -- Face 1
  -0.3, -0.3, -0.7, 1.0, 1.0, 0.0, 0.0, 0.0, 1.0,
  0.3, -0.3, -0.7, 0.0, 1.0, 1.0, 0.0, 0.0, 1.0,
  0.0, 0.3, -0.7, 1.0, 0.0, 1.0, 0.0, 0.0, 1.0,
  -- Face 2
  -0.3, -0.3, -0.7, 1.0, 1.0, 0.0, -0.5, -0.5, -0.5,
  0.3, -0.3, -0.7, 0.0, 1.0, 1.0, -0.5, -0.5, -0.5,
  0.0, 0.0, -1.2, 0.5, 0.5, 0.5, -0.5, -0.5, -0.5,
  -- Face 3
  0.3, -0.3, -0.7, 0.0, 1.0, 1.0, 0.5, 0.0, -0.5,
  0.0, 0.3, -0.7, 1.0, 0.0, 1.0, 0.5, 0.0, -0.5,
  0.0, 0.0, -1.2, 0.5, 0.5, 0.5, 0.5, 0.0, -0.5,
  -- Face 4
  0.0, 0.3, -0.7, 1.0, 0.0, 1.0, 0.0, 0.5, -0.5,
  -0.3, -0.3, -0.7, 1.0, 1.0, 0.0, 0.0, 0.5, -0.5,
  0.0, 0.0, -1.2, 0.5, 0.5, 0.5, 0.0, 0.5, -0.5]

/-- Size in bytes of a `float`. -/
def sizeofFloat : Nat := 4

/-- Value of `sizeof(vertices)`, the byte count passed to `glBufferData`. -/
def sizeofVertices : Nat := vertices.length * sizeofFloat

/-- The arguments `index`, `size`, `stride` and `pointer` of one `glVertexAttribPointer`
call; `stride` and `pointer` are in bytes. -/
structure VertexAttrib where
  index : Nat
  size : Nat
  stride : Nat
  pointer : Nat
  deriving DecidableEq

/-- Position attribute (line 282). -/
def positionAttrib : VertexAttrib := ⟨0, 3, 9 * sizeofFloat, 0⟩

/-- Colour attribute (line 286). -/
def colorAttrib : VertexAttrib := ⟨1, 3, 9 * sizeofFloat, 3 * sizeofFloat⟩

/-- Normal attribute (line 290). -/
def normalAttrib : VertexAttrib := ⟨2, 3, 9 * sizeofFloat, 6 * sizeofFloat⟩

/-- The three attribute pointers set up by `main`, in call order. -/
def vertexAttribs : List VertexAttrib := [positionAttrib, colorAttrib, normalAttrib]

/-- The arguments `first` and `count` of one `glDrawArrays(GL_TRIANGLES, first, count)`. -/
structure DrawCall where
  first : Nat
  count : Nat
  deriving DecidableEq

/-- Draw call of the first pyramid (line 358). -/
def firstDraw : DrawCall := ⟨0, 12⟩

/-- Draw call of the second pyramid (line 382). -/
def secondDraw : DrawCall := ⟨12, 12⟩

/-- The two draw calls of a frame, in call order. -/
def drawCalls : List DrawCall := [firstDraw, secondDraw]

/-- Byte offset in the buffer of component `c` of attribute `a` for vertex `v`. -/
def fetchByte (a : VertexAttrib) (v c : Nat) : Nat :=
  a.pointer + v * a.stride + c * sizeofFloat

/-- Index in `vertices` of the float at `fetchByte a v c`. -/
def fetchIndex (a : VertexAttrib) (v c : Nat) : Nat :=
  fetchByte a v c / sizeofFloat

/-- The `vec3` the vertex shader receives for attribute `a` at vertex `v`. -/
def fetchVec3 (a : VertexAttrib) (v : Nat) : ℚ × ℚ × ℚ :=
  (vertices.getD (fetchIndex a v 0) 0, vertices.getD (fetchIndex a v 1) 0,
   vertices.getD (fetchIndex a v 2) 0)

/-- Shader input `aPos` (location 0) of vertex `v`. -/
def aPos (v : Nat) : ℚ × ℚ × ℚ := fetchVec3 positionAttrib v

/-- Shader input `aColor` (location 1) of vertex `v`. -/
def aColor (v : Nat) : ℚ × ℚ × ℚ := fetchVec3 colorAttrib v

/-- Shader input `aNormal` (location 2) of vertex `v`. -/
def aNormal (v : Nat) : ℚ × ℚ × ℚ := fetchVec3 normalAttrib v

/-! ## Geometry of the vertex data -/

/-- Difference of two points. -/
def sub3 (p q : ℚ × ℚ × ℚ) : ℚ × ℚ × ℚ :=
  (p.1 - q.1, p.2.1 - q.2.1, p.2.2 - q.2.2)

/-- Dot product. -/
def dot3 (p q : ℚ × ℚ × ℚ) : ℚ :=
  p.1 * q.1 + p.2.1 * q.2.1 + p.2.2 * q.2.2

/-- Determinant of the matrix with rows `u`, `v`, `w`. -/
def det3 (u v w : ℚ × ℚ × ℚ) : ℚ :=
  u.1 * (v.2.1 * w.2.2 - v.2.2 * w.2.1) - u.2.1 * (v.1 * w.2.2 - v.2.2 * w.1)
    + u.2.2 * (v.1 * w.2.1 - v.2.1 * w.1)

/-- First edge vector of triangle `t` (vertices `3 * t`, `3 * t + 1`, `3 * t + 2`). -/
def edge1 (t : Nat) : ℚ × ℚ × ℚ := sub3 (aPos (3 * t + 1)) (aPos (3 * t))

/-- Second edge vector of triangle `t`. -/
def edge2 (t : Nat) : ℚ × ℚ × ℚ := sub3 (aPos (3 * t + 2)) (aPos (3 * t))

/-- The normal stored with triangle `t` is non-zero, the same at its three vertices and
perpendicular to both edge vectors. -/
def IsFaceNormal (t : Nat) : Prop :=
  aNormal (3 * t) ≠ (0, 0, 0) ∧
  aNormal (3 * t + 1) = aNormal (3 * t) ∧ aNormal (3 * t + 2) = aNormal (3 * t) ∧
  dot3 (aNormal (3 * t)) (edge1 t) = 0 ∧ dot3 (aNormal (3 * t)) (edge2 t) = 0

/-- The distinct values among the first twelve values of `pos`. -/
def corners {P : Type} [DecidableEq P] (pos : Nat → P) : Finset P :=
  ((List.range 12).map pos).toFinset

/-- The corner set of triangle `t` of a twelve-vertex group. -/
def face {P : Type} [DecidableEq P] (pos : Nat → P) (t : Nat) : Finset P :=
  {pos (3 * t), pos (3 * t + 1), pos (3 * t + 2)}

/-- A twelve-vertex group is the surface of a tetrahedron: four distinct positions, the
four triangles are pairwise distinct and are exactly the three-element subsets of the
positions, every pair of distinct positions lies on exactly two triangles, and equal
positions carry equal colours. -/
def IsTetrahedronMesh {P C : Type} [DecidableEq P] (pos : Nat → P) (col : Nat → C) : Prop :=
  (corners pos).card = 4 ∧
  (∀ t < 4, ∀ u < 4, face pos t = face pos u → t = u) ∧
  (Finset.range 4).image (face pos) = (corners pos).powersetCard 3 ∧
  (∀ p ∈ corners pos, ∀ q ∈ corners pos, p ≠ q →
    ((Finset.range 4).filter (fun t => p ∈ face pos t ∧ q ∈ face pos t)).card = 2) ∧
  (∀ i < 12, ∀ j < 12, pos i = pos j → col i = col j)

/-- Positions of the twelve vertices drawn by `glDrawArrays(GL_TRIANGLES, 12 * g, 12)`. -/
def groupPos (g k : Nat) : ℚ × ℚ × ℚ := aPos (12 * g + k)

/-- Colours of the twelve vertices drawn by `glDrawArrays(GL_TRIANGLES, 12 * g, 12)`. -/
def groupColor (g k : Nat) : ℚ × ℚ × ℚ := aColor (12 * g + k)

/-- Group `g` is a tetrahedron mesh whose four corners are not coplanar. -/
def IsTetrahedron (g : Nat) : Prop :=
  IsTetrahedronMesh (groupPos g) (groupColor g) ∧
  corners (groupPos g) = {groupPos g 0, groupPos g 1, groupPos g 2, groupPos g 5} ∧
  det3 (sub3 (groupPos g 1) (groupPos g 0)) (sub3 (groupPos g 2) (groupPos g 0))
    (sub3 (groupPos g 5) (groupPos g 0)) ≠ 0

/-! ## `main` (lines 160-397) -/

/-- What `main` does that is visible from outside: a call into GLFW or OpenGL (with the
integer arguments written in the source) or a line on standard error. -/
inductive Event where
  | call (name : String) (args : List Nat)
  | stderr (line : String)
  deriving DecidableEq

/-- The answers `main` gets from the libraries: whether `glfwInit` and
`glfwCreateWindow` succeed, the three status flags and info logs of the shaders, and how
many times `glfwWindowShouldClose` answers false before it answers true. -/
structure Driver where
  initOk : Bool
  windowOk : Bool
  vertexCompiled : Bool
  fragmentCompiled : Bool
  programLinked : Bool
  vertexLog : String
  fragmentLog : String
  linkLog : String
  frames : Nat

/-- Events and exit code of a run. -/
structure Outcome where
  events : List Event
  exitCode : Int

/-- A status query followed by `if (!success)`: fetch the info log and print it. -/
def statusCheck (query fetchLog : String) (success : Bool) (message log : String) :
    List Event :=
  Event.call query [] ::
    (if !success then [Event.call fetchLog [512], Event.stderr (message ++ log)] else [])

/-- One `glVertexAttribPointer` call followed by `glEnableVertexAttribArray`. -/
def attribSetup (a : VertexAttrib) : List Event :=
  [Event.call "glVertexAttribPointer" [a.index, a.size, a.stride, a.pointer],
   Event.call "glEnableVertexAttribArray" [a.index]]

/-- One `glDrawArrays(GL_TRIANGLES, first, count)`. -/
def drawArrays (d : DrawCall) : Event :=
  Event.call "glDrawArrays" [d.first, d.count]

/-- The calls of one iteration of the render loop (lines 305-386). -/
def frameCalls : List Event :=
  [Event.call "glClearColor" [], Event.call "glClear" [], Event.call "glUseProgram" [],
   Event.call "glUniform3f" [], Event.call "glUniform3f" [],
   Event.call "glUniformMatrix4fv" [1], Event.call "glUniformMatrix4fv" [1],
   Event.call "glfwGetTime" [],
   Event.call "glUniformMatrix4fv" [1], Event.call "glBindVertexArray" [],
   drawArrays firstDraw,
   Event.call "glUniformMatrix4fv" [1],
   drawArrays secondDraw,
   Event.call "glfwSwapBuffers" [], Event.call "glfwPollEvents" []]

/-- The loop `while (!glfwWindowShouldClose(window))` when the window closes after
`frames` iterations. -/
def renderLoop : Nat → List Event
  | 0 => [Event.call "glfwWindowShouldClose" []]
  | frames + 1 => Event.call "glfwWindowShouldClose" [] :: (frameCalls ++ renderLoop frames)

/-- The function `main`. -/
def main (d : Driver) : Outcome :=
  if !d.initOk then
    ⟨[Event.call "glfwInit" [], Event.stderr "Failed to initialize GLFW"], -1⟩
  else
    let hints : List Event :=
      [Event.call "glfwInit" [], Event.call "glfwWindowHint" [3],
       Event.call "glfwWindowHint" [3], Event.call "glfwWindowHint" [],
       Event.call "glfwWindowHint" [], Event.call "glfwCreateWindow" [800, 600]]
    if !d.windowOk then
      ⟨hints ++ [Event.stderr "Failed to create GLFW window", Event.call "glfwTerminate" []],
        -1⟩
    else
      ⟨hints ++ [Event.call "glfwMakeContextCurrent" []]
        ++ [Event.call "glCreateShader" [], Event.call "glShaderSource" [1],
            Event.call "glCompileShader" []]
        ++ statusCheck "glGetShaderiv" "glGetShaderInfoLog" d.vertexCompiled
            "Vertex shader compilation failed: " d.vertexLog
        ++ [Event.call "glCreateShader" [], Event.call "glShaderSource" [1],
            Event.call "glCompileShader" []]
        ++ statusCheck "glGetShaderiv" "glGetShaderInfoLog" d.fragmentCompiled
            "Fragment shader compilation failed: " d.fragmentLog
        ++ [Event.call "glCreateProgram" [], Event.call "glAttachShader" [],
            Event.call "glAttachShader" [], Event.call "glLinkProgram" []]
        ++ statusCheck "glGetProgramiv" "glGetProgramInfoLog" d.programLinked
            "Shader program linking failed: " d.linkLog
        ++ [Event.call "glDeleteShader" [], Event.call "glDeleteShader" [],
            Event.call "glGenVertexArrays" [1], Event.call "glGenBuffers" [1],
            Event.call "glBindVertexArray" [], Event.call "glBindBuffer" [],
            Event.call "glBufferData" [sizeofVertices]]
        ++ vertexAttribs.flatMap attribSetup
        ++ [Event.call "glGetUniformLocation" [], Event.call "glGetUniformLocation" [],
            Event.call "glGetUniformLocation" [], Event.call "glGetUniformLocation" [],
            Event.call "glGetUniformLocation" [], Event.call "glEnable" []]
        ++ renderLoop d.frames
        ++ [Event.call "glDeleteVertexArrays" [1], Event.call "glDeleteBuffers" [1],
            Event.call "glDeleteProgram" [], Event.call "glfwTerminate" []],
        0⟩

/-- Events of a failing status check: the info-log fetch and the line on standard error. -/
def isFailureReport : Event → Bool
  | Event.stderr _ => true
  | Event.call name _ => name == "glGetShaderInfoLog" || name == "glGetProgramInfoLog"

/-- Events outside the failure branch of a status check. -/
def outsideReport (e : Event) : Bool :=
  !isFailureReport e

/-- The lines written to standard error, in order. -/
def stderrLines : List Event → List String
  | [] => []
  | Event.stderr line :: rest => line :: stderrLines rest
  | Event.call _ _ :: rest => stderrLines rest

/-- The driver with the three shader status flags set to success. -/
def allSucceed (d : Driver) : Driver :=
  ⟨d.initOk, d.windowOk, true, true, true, d.vertexLog, d.fragmentLog, d.linkLog, d.frames⟩

/-! ## Vertex order of a tetrahedron -/

/-- The first twelve values of `pos` follow the vertex order of the four triangles
`abc`, `abd`, `bcd`, `cad`. -/
structure Pattern {P : Type} (pos : Nat → P) (a b c d : P) : Prop where
  p0 : pos 0 = a
  p1 : pos 1 = b
  p2 : pos 2 = c
  p3 : pos 3 = a
  p4 : pos 4 = b
  p5 : pos 5 = d
  p6 : pos 6 = b
  p7 : pos 7 = c
  p8 : pos 8 = d
  p9 : pos 9 = c
  p10 : pos 10 = a
  p11 : pos 11 = d

/-- Four pairwise distinct values. -/
structure Distinct4 {P : Type} (a b c d : P) : Prop where
  ab : a ≠ b
  ac : a ≠ c
  ad : a ≠ d
  bc : b ≠ c
  bd : b ≠ d
  cd : c ≠ d

/-! ## Sample inputs -/

/-- Rational values `cos = 3/5`, `sin = 4/5`, `tan = 4/3` at every argument. -/
def libmThreeFourFive : Libm ℚ := ⟨fun _ => 3 / 5, fun _ => 4 / 5, fun _ => 4 / 3⟩

/-- Values at a quarter turn: `cos = 0`, `sin = 1` (`tan` is not used there). -/
def libmQuarterTurn : Libm ℚ := ⟨fun _ => 0, fun _ => 1, fun _ => 0⟩

/-- A matrix with sixteen different entries. -/
def sampleA : List ℚ := [1, 2, 3, 4, 5, 6, 7, 8, 9, 10, 11, 12, 13, 14, 15, 16]

/-- A second matrix. -/
def sampleB : List ℚ := [2, 0, 1, 0, 0, 3, 0, 1, 1, 0, 0, 5, 7, 0, 0, 1]

/-- A matrix of `float` values whose first row is `(2^24, 1, -2^24, 0)`. -/
def roundingA : List ℚ := [16777216, 0, 0, 0, 1, 0, 0, 0, -16777216, 0, 0, 0, 0, 0, 0, 0]

/-- A matrix of `float` values whose first column is `(1, 1, 1, 1)`. -/
def roundingB : List ℚ := [1, 1, 1, 1, 0, 0, 0, 0, 0, 0, 0, 0, 0, 0, 0, 0]

/-- A run where the vertex shader and the link step fail and two frames are drawn. -/
def sampleDriver : Driver := ⟨true, true, false, true, false, "E1", "", "E3", 2⟩

/-! ## Lemmas on arrays and loops -/

theorem forRange_four {σ : Type} (body : Nat → σ → Option σ) (st : σ) :
    forRange 4 body st = (((body 0 st).bind (body 1)).bind (body 2)).bind (body 3) := by
  simp only [forRange, forLoop]
  cases body 0 st <;> simp [Option.bind_assoc]

theorem store_of_lt {α : Type} (m : List α) (i : Nat) (v : α) (h : i < m.length) :
    store m i v = some (m.set i v) := by
  simp [store, h]

theorem load_of_lt {α : Type} [Zero α] (m : List α) (i : Nat) (h : i < m.length) :
    load m i = some (entry m i) := by
  simp [load, entry, List.getD, List.getElem?_eq_getElem h]

theorem entry_set_self {α : Type} [Zero α] (m : List α) (i : Nat) (v : α)
    (h : i < m.length) : entry (m.set i v) i = v := by
  simp [entry, List.getD, List.getElem?_set, h]

theorem list_sixteen {α : Type} (m : List α) (h : m.length = 16) :
    ∃ x0 x1 x2 x3 x4 x5 x6 x7 x8 x9 x10 x11 x12 x13 x14 x15,
      m = [x0, x1, x2, x3, x4, x5, x6, x7, x8, x9, x10, x11, x12, x13, x14, x15] := by
  match m, h with
  | [x0, x1, x2, x3, x4, x5, x6, x7, x8, x9, x10, x11, x12, x13, x14, x15], _ =>
    exact ⟨x0, x1, x2, x3, x4, x5, x6, x7, x8, x9, x10, x11, x12, x13, x14, x15, rfl⟩

theorem accumulate_eq {α : Type} [Zero α] [Add α] [Mul α] (a b result : List α) (i j k : Nat)
    (ha : a.length = 16) (hb : b.length = 16) (hr : result.length = 16)
    (hi : i < 4) (hj : j < 4) (hk : k < 4) :
    accumulate a b i j k result
      = some (result.set (i + j * 4)
          (entry result (i + j * 4) + entry a (i + k * 4) * entry b (k + j * 4))) := by
  unfold accumulate
  rw [load_of_lt result _ (by omega), load_of_lt a _ (by omega), load_of_lt b _ (by omega)]
  simp only [Option.bind_eq_bind, Option.some_bind]
  rw [store_of_lt _ _ _ (by omega)]

theorem cell_eq {α : Type} [Zero α] [Add α] [Mul α] (a b result : List α) (i j : Nat)
    (ha : a.length = 16) (hb : b.length = 16) (hr : result.length = 16)
    (hi : i < 4) (hj : j < 4) :
    cell a b i j result = some (result.set (i + j * 4) (rowCol a b i j)) := by
  unfold cell
  rw [store_of_lt _ _ _ (by omega)]
  simp only [Option.bind_eq_bind, Option.some_bind, forRange_four]
  rw [accumulate_eq a b _ i j 0 ha hb (by simp [hr]) hi hj (by omega)]
  simp only [Option.some_bind, List.set_set]
  rw [accumulate_eq a b _ i j 1 ha hb (by simp [hr]) hi hj (by omega)]
  simp only [Option.some_bind, List.set_set]
  rw [accumulate_eq a b _ i j 2 ha hb (by simp [hr]) hi hj (by omega)]
  simp only [Option.some_bind, List.set_set]
  rw [accumulate_eq a b _ i j 3 ha hb (by simp [hr]) hi hj (by omega)]
  simp only [Option.some_bind, List.set_set]
  rw [entry_set_self _ _ _ (by omega), entry_set_self _ _ _ (by omega),
    entry_set_self _ _ _ (by omega), entry_set_self _ _ _ (by omega)]
  simp [rowCol]

theorem column_eq {α : Type} [Zero α] [Add α] [Mul α] (a b result : List α) (i : Nat)
    (ha : a.length = 16) (hb : b.length = 16) (hr : result.length = 16) (hi : i < 4) :
    forRange 4 (fun j result => cell a b i j result) result
      = some ((((result.set i (rowCol a b i 0)).set (i + 4) (rowCol a b i 1)).set (i + 8)
          (rowCol a b i 2)).set (i + 12) (rowCol a b i 3)) := by
  rw [forRange_four]
  rw [cell_eq a b _ i 0 ha hb hr hi (by omega)]
  simp only [Option.some_bind]
  rw [cell_eq a b _ i 1 ha hb (by simp [hr]) hi (by omega)]
  simp only [Option.some_bind]
  rw [cell_eq a b _ i 2 ha hb (by simp [hr]) hi (by omega)]
  simp only [Option.some_bind]
  rw [cell_eq a b _ i 3 ha hb (by simp [hr]) hi (by omega)]
  simp

/-- The value `multiplyMatrices` returns, entry by entry. -/
theorem multiplyMatrices_eval {α : Type} [Zero α] [Add α] [Mul α] (a b result : List α)
    (ha : a.length = 16) (hb : b.length = 16) (hr : result.length = 16) :
    multiplyMatrices a b result
      = some [rowCol a b 0 0, rowCol a b 1 0, rowCol a b 2 0, rowCol a b 3 0,
              rowCol a b 0 1, rowCol a b 1 1, rowCol a b 2 1, rowCol a b 3 1,
              rowCol a b 0 2, rowCol a b 1 2, rowCol a b 2 2, rowCol a b 3 2,
              rowCol a b 0 3, rowCol a b 1 3, rowCol a b 2 3, rowCol a b 3 3] := by
  unfold multiplyMatrices
  rw [forRange_four]
  rw [column_eq a b _ 0 ha hb hr (by omega)]
  simp only [Option.some_bind]
  rw [column_eq a b _ 1 ha hb (by simp [hr]) (by omega)]
  simp only [Option.some_bind]
  rw [column_eq a b _ 2 ha hb (by simp [hr]) (by omega)]
  simp only [Option.some_bind]
  rw [column_eq a b _ 3 ha hb (by simp [hr]) (by omega)]
  obtain ⟨x0, x1, x2, x3, x4, x5, x6, x7, x8, x9, x10, x11, x12, x13, x14, x15, rfl⟩ :=
    list_sixteen result hr
  simp

theorem storeAll_cons {α : Type} (m : List α) (i : Nat) (v : α) (rest : List (Nat × α))
    (h : i < m.length) : storeAll m ((i, v) :: rest) = storeAll (m.set i v) rest := by
  simp [storeAll, store, h]

/-- Sixteen assignments in the order the four constructors use fill the whole array. -/
theorem storeAll_sixteen {α : Type} (m : List α) (h : m.length = 16)
    (v0 v1 v2 v3 v4 v5 v6 v7 v8 v9 v10 v11 v12 v13 v14 v15 : α) :
    storeAll m [(0, v0), (4, v4), (8, v8), (12, v12), (1, v1), (5, v5), (9, v9), (13, v13),
      (2, v2), (6, v6), (10, v10), (14, v14), (3, v3), (7, v7), (11, v11), (15, v15)]
      = some [v0, v1, v2, v3, v4, v5, v6, v7, v8, v9, v10, v11, v12, v13, v14, v15] := by
  iterate 16 rw [storeAll_cons _ _ _ _ (by simp [h])]
  obtain ⟨x0, x1, x2, x3, x4, x5, x6, x7, x8, x9, x10, x11, x12, x13, x14, x15, rfl⟩ :=
    list_sixteen m h
  simp [storeAll]

theorem createRotationMatrixY_eval {α : Type} [Field α] (L : Libm α) (angle : α)
    (matrix : List α) (h : matrix.length = 16) :
    createRotationMatrixY L angle matrix
      = some [L.cos angle, 0, -L.sin angle, 0, 0, 1, 0, 0,
              L.sin angle, 0, L.cos angle, 0, 0, 0, 0, 1] :=
  storeAll_sixteen matrix h _ _ _ _ _ _ _ _ _ _ _ _ _ _ _ _

theorem createPerspectiveMatrix_eval {α : Type} [Field α] (L : Libm α)
    (fov aspect nearZ farZ : α) (matrix : List α) (h : matrix.length = 16) :
    createPerspectiveMatrix L fov aspect nearZ farZ matrix
      = some [1 / (aspect * L.tan (fov / 2)), 0, 0, 0, 0, 1 / L.tan (fov / 2), 0, 0,
              0, 0, -(farZ + nearZ) / (farZ - nearZ), -1,
              0, 0, -2 * farZ * nearZ / (farZ - nearZ), 0] :=
  storeAll_sixteen matrix h _ _ _ _ _ _ _ _ _ _ _ _ _ _ _ _

theorem createViewMatrix_eval {α : Type} [Field α] (eyeX eyeY eyeZ : α)
    (matrix : List α) (h : matrix.length = 16) :
    createViewMatrix eyeX eyeY eyeZ matrix
      = some [1, 0, 0, 0, 0, 1, 0, 0, 0, 0, 1, 0, -eyeX, -eyeY, -eyeZ, 1] :=
  storeAll_sixteen matrix h _ _ _ _ _ _ _ _ _ _ _ _ _ _ _ _

theorem createTranslationMatrix_eval {α : Type} [Field α] (x y z : α)
    (matrix : List α) (h : matrix.length = 16) :
    createTranslationMatrix x y z matrix
      = some [1, 0, 0, 0, 0, 1, 0, 0, 0, 0, 1, 0, x, y, z, 1] :=
  storeAll_sixteen matrix h _ _ _ _ _ _ _ _ _ _ _ _ _ _ _ _

theorem transpose_literal {α : Type} [Field α]
    (x0 x1 x2 x3 x4 x5 x6 x7 x8 x9 x10 x11 x12 x13 x14 x15 : α) :
    transpose [x0, x1, x2, x3, x4, x5, x6, x7, x8, x9, x10, x11, x12, x13, x14, x15]
      = [x0, x4, x8, x12, x1, x5, x9, x13, x2, x6, x10, x14, x3, x7, x11, x15] := by
  rfl

/-- The product of two matrices given entry by entry. -/
theorem multiplyMatrices_literal {α : Type} [Field α]
    (a0 a1 a2 a3 a4 a5 a6 a7 a8 a9 a10 a11 a12 a13 a14 a15 : α)
    (b0 b1 b2 b3 b4 b5 b6 b7 b8 b9 b10 b11 b12 b13 b14 b15 : α) (result : List α)
    (hr : result.length = 16) :
    multiplyMatrices [a0, a1, a2, a3, a4, a5, a6, a7, a8, a9, a10, a11, a12, a13, a14, a15]
        [b0, b1, b2, b3, b4, b5, b6, b7, b8, b9, b10, b11, b12, b13, b14, b15] result
      = some
        [0 + a0 * b0 + a4 * b1 + a8 * b2 + a12 * b3, 0 + a1 * b0 + a5 * b1 + a9 * b2 + a13 * b3,
         0 + a2 * b0 + a6 * b1 + a10 * b2 + a14 * b3, 0 + a3 * b0 + a7 * b1 + a11 * b2 + a15 * b3,
         0 + a0 * b4 + a4 * b5 + a8 * b6 + a12 * b7, 0 + a1 * b4 + a5 * b5 + a9 * b6 + a13 * b7,
         0 + a2 * b4 + a6 * b5 + a10 * b6 + a14 * b7, 0 + a3 * b4 + a7 * b5 + a11 * b6 + a15 * b7,
         0 + a0 * b8 + a4 * b9 + a8 * b10 + a12 * b11, 0 + a1 * b8 + a5 * b9 + a9 * b10 + a13 * b11,
         0 + a2 * b8 + a6 * b9 + a10 * b10 + a14 * b11,
         0 + a3 * b8 + a7 * b9 + a11 * b10 + a15 * b11,
         0 + a0 * b12 + a4 * b13 + a8 * b14 + a12 * b15,
         0 + a1 * b12 + a5 * b13 + a9 * b14 + a13 * b15,
         0 + a2 * b12 + a6 * b13 + a10 * b14 + a14 * b15,
         0 + a3 * b12 + a7 * b13 + a11 * b14 + a15 * b15] := by
  rw [multiplyMatrices_eval _ _ result (by rfl) (by rfl) hr]
  rfl

/-! ## Lemmas on `float` rounding -/

theorem ulp_eq (x : ℚ) (e : ℤ) (h1 : (2 : ℚ) ^ e ≤ |x|) (h2 : |x| < (2 : ℚ) ^ (e + 1))
    (he : -126 ≤ e) : ulp x = (2 : ℚ) ^ (e - 23) := by
  have hpos : 0 < |x| := lt_of_lt_of_le (by positivity) h1
  have hlog : Int.log 2 |x| = e := by
    apply le_antisymm
    · have := (Int.lt_zpow_iff_log_lt (R := ℚ) (b := 2) (by norm_num) hpos).mp
        (by exact_mod_cast h2)
      omega
    · exact (Int.zpow_le_iff_le_log (R := ℚ) (b := 2) (by norm_num) hpos).mp
        (by exact_mod_cast h1)
  simp [ulp, hlog, he]

theorem roundHalfEven_intCast (n : ℤ) : roundHalfEven (n : ℚ) = n := by
  simp [roundHalfEven]

theorem roundF32_zero : roundF32 0 = F32.finite 0 := by
  norm_num [roundF32, roundHalfEven, maxF32]

theorem roundF32_one : roundF32 1 = F32.finite 1 := by
  have hu : ulp 1 = 2 ^ (-23 : ℤ) := by
    rw [ulp_eq 1 0 (by norm_num) (by norm_num) (by norm_num)]
    norm_num
  have hx : (1 : ℚ) / 2 ^ (-23 : ℤ) = ((8388608 : ℤ) : ℚ) := by norm_num
  rw [roundF32, hu, hx, roundHalfEven_intCast]
  norm_num [maxF32]

theorem roundF32_two_pow : roundF32 16777216 = F32.finite 16777216 := by
  have hu : ulp 16777216 = 2 := by
    rw [ulp_eq 16777216 24 (by norm_num) (by norm_num) (by norm_num)]
    norm_num
  have hx : (16777216 : ℚ) / 2 = ((8388608 : ℤ) : ℚ) := by norm_num
  rw [roundF32, hu, hx, roundHalfEven_intCast]
  norm_num [maxF32]

theorem roundF32_neg_two_pow : roundF32 (-16777216) = F32.finite (-16777216) := by
  have hu : ulp (-16777216) = 2 := by
    rw [ulp_eq (-16777216) 24 (by norm_num) (by norm_num) (by norm_num)]
    norm_num
  have hx : (-16777216 : ℚ) / 2 = ((-8388608 : ℤ) : ℚ) := by norm_num
  rw [roundF32, hu, hx, roundHalfEven_intCast]
  norm_num [maxF32]

/-- The sum `2^24 + 1` lies halfway between two binary32 numbers and rounds to `2^24`. -/
theorem roundF32_two_pow_succ : roundF32 16777217 = F32.finite 16777216 := by
  have hu : ulp 16777217 = 2 := by
    rw [ulp_eq 16777217 24 (by norm_num) (by norm_num) (by norm_num)]
    norm_num
  have hf : ⌊(16777217 / 2 : ℚ)⌋ = 8388608 := by
    rw [Int.floor_eq_iff]
    constructor <;> norm_num
  have hr : roundHalfEven (16777217 / 2) = 8388608 := by
    simp only [roundHalfEven, hf]
    norm_num
  simp only [roundF32, hu, hr]
  norm_num [maxF32]

theorem F32.zero_def : (0 : F32) = F32.finite 0 :=
  rfl

theorem F32.add_def (x y : ℚ) : F32.finite x + F32.finite y = roundF32 (x + y) := by
  show F32.add (F32.finite x) (F32.finite y) = roundF32 (x + y)
  rw [F32.add]

theorem F32.mul_def (x y : ℚ) : F32.finite x * F32.finite y = roundF32 (x * y) := by
  show F32.mul (F32.finite x) (F32.finite y) = roundF32 (x * y)
  rw [F32.mul]

theorem length_floats (m : List ℚ) : (floats m).length = m.length := by
  simp [floats]

theorem rounding_entries :
    entry (floats roundingA) 0 = F32.finite 16777216 ∧
    entry (floats roundingA) 4 = F32.finite 1 ∧
    entry (floats roundingA) 8 = F32.finite (-16777216) ∧
    entry (floats roundingA) 12 = F32.finite 0 ∧
    entry (floats roundingB) 0 = F32.finite 1 ∧
    entry (floats roundingB) 1 = F32.finite 1 ∧
    entry (floats roundingB) 2 = F32.finite 1 ∧
    entry (floats roundingB) 3 = F32.finite 1 := by
  refine ⟨?_, ?_, ?_, ?_, ?_, ?_, ?_, ?_⟩ <;>
    simp only [entry, floats, roundingA, roundingB, List.map_cons, List.getD_cons_zero,
      List.getD_cons_succ]

/-- The running sum of the first cell: `2^24 + 1` rounds to `2^24`, so the `1` is lost. -/
theorem rounding_first_cell :
    rowCol (floats roundingA) (floats roundingB) 0 0 = F32.finite 0 := by
  obtain ⟨a0, a4, a8, a12, b0, b1, b2, b3⟩ := rounding_entries
  rw [rowCol, Nat.zero_mul, Nat.zero_add, Nat.zero_add, Nat.zero_add, Nat.add_zero,
    Nat.add_zero, Nat.add_zero, a0, a4, a8, a12, b0, b1, b2, b3, F32.zero_def]
  rw [F32.mul_def 16777216 1, mul_one, roundF32_two_pow, F32.add_def 0 16777216, zero_add,
    roundF32_two_pow, F32.mul_def 1 1, mul_one, roundF32_one, F32.add_def 16777216 1]
  rw [show (16777216 : ℚ) + 1 = 16777217 by norm_num, roundF32_two_pow_succ,
    F32.mul_def (-16777216) 1, mul_one, roundF32_neg_two_pow,
    F32.add_def 16777216 (-16777216), add_neg_cancel, roundF32_zero, F32.mul_def 0 1,
    zero_mul, roundF32_zero, F32.add_def, zero_add, roundF32_zero]

theorem rounding_representable :
    ∀ x ∈ roundingA ++ roundingB, roundF32 x = F32.finite x := by
  intro x hx
  simp only [roundingA, roundingB, List.cons_append, List.nil_append, List.mem_cons,
    List.mem_nil_iff, or_false] at hx
  rcases hx with h | h | h | h | h | h | h | h | h | h | h | h | h | h | h | h | h | h | h
    | h | h | h | h | h | h | h | h | h | h | h | h | h <;>
    first
      | (rw [h]; exact roundF32_zero)
      | (rw [h]; exact roundF32_one)
      | (rw [h]; exact roundF32_two_pow)
      | (rw [h]; exact roundF32_neg_two_pow)

theorem rounding_exact_sum :
    ∑ k in Finset.range 4, entry roundingA (0 + 4 * k) * entry roundingB (k + 4 * 0) = 1 := by
  norm_num [Finset.sum_range_succ, entry, roundingA, roundingB]

/-! ## Lemmas on the event list of `main` -/

theorem filter_frameCalls : frameCalls.filter outsideReport = frameCalls := by
  decide

theorem filter_attribSetup :
    (vertexAttribs.flatMap attribSetup).filter outsideReport
      = vertexAttribs.flatMap attribSetup := by
  decide

theorem stderrLines_frameCalls : stderrLines frameCalls = [] := by
  decide

theorem stderrLines_attribSetup : stderrLines (vertexAttribs.flatMap attribSetup) = [] := by
  decide

theorem stderrLines_append (xs ys : List Event) :
    stderrLines (xs ++ ys) = stderrLines xs ++ stderrLines ys := by
  induction xs with
  | nil => rfl
  | cons e rest ih => cases e <;> simp [stderrLines, ih]

theorem filter_renderLoop (frames : Nat) :
    (renderLoop frames).filter outsideReport = renderLoop frames := by
  induction frames with
  | zero => decide
  | succ n ih =>
    rw [renderLoop, List.filter_cons, List.filter_append, ih, filter_frameCalls]
    have : outsideReport (Event.call "glfwWindowShouldClose" []) = true := by decide
    rw [if_pos this]

theorem stderrLines_renderLoop (frames : Nat) : stderrLines (renderLoop frames) = [] := by
  induction frames with
  | zero => decide
  | succ n ih =>
    rw [renderLoop, stderrLines, stderrLines_append, ih, stderrLines_frameCalls]
    rfl

/-! ## Lemmas on the vertex data -/

theorem aPos_values :
    aPos 0 = (-0.5, -0.5, 0.0) ∧
    aPos 1 = (0.5, -0.5, 0.0) ∧
    aPos 2 = (0.0, 0.5, 0.0) ∧
    aPos 3 = (-0.5, -0.5, 0.0) ∧
    aPos 4 = (0.5, -0.5, 0.0) ∧
    aPos 5 = (0.0, 0.0, -0.5) ∧
    aPos 6 = (0.5, -0.5, 0.0) ∧
    aPos 7 = (0.0, 0.5, 0.0) ∧
    aPos 8 = (0.0, 0.0, -0.5) ∧
    aPos 9 = (0.0, 0.5, 0.0) ∧
    aPos 10 = (-0.5, -0.5, 0.0) ∧
    aPos 11 = (0.0, 0.0, -0.5) ∧
    aPos 12 = (-0.3, -0.3, -0.7) ∧
    aPos 13 = (0.3, -0.3, -0.7) ∧
    aPos 14 = (0.0, 0.3, -0.7) ∧
    aPos 15 = (-0.3, -0.3, -0.7) ∧
    aPos 16 = (0.3, -0.3, -0.7) ∧
    aPos 17 = (0.0, 0.0, -1.2) ∧
    aPos 18 = (0.3, -0.3, -0.7) ∧
    aPos 19 = (0.0, 0.3, -0.7) ∧
    aPos 20 = (0.0, 0.0, -1.2) ∧
    aPos 21 = (0.0, 0.3, -0.7) ∧
    aPos 22 = (-0.3, -0.3, -0.7) ∧
    aPos 23 = (0.0, 0.0, -1.2) := by
  exact ⟨rfl, rfl, rfl, rfl, rfl, rfl, rfl, rfl, rfl, rfl, rfl, rfl,
    rfl, rfl, rfl, rfl, rfl, rfl, rfl, rfl, rfl, rfl, rfl, rfl⟩

theorem aColor_values :
    aColor 0 = (1.0, 0.0, 0.0) ∧
    aColor 1 = (0.0, 1.0, 0.0) ∧
    aColor 2 = (0.0, 0.0, 1.0) ∧
    aColor 3 = (1.0, 0.0, 0.0) ∧
    aColor 4 = (0.0, 1.0, 0.0) ∧
    aColor 5 = (1.0, 1.0, 1.0) ∧
    aColor 6 = (0.0, 1.0, 0.0) ∧
    aColor 7 = (0.0, 0.0, 1.0) ∧
    aColor 8 = (1.0, 1.0, 1.0) ∧
    aColor 9 = (0.0, 0.0, 1.0) ∧
    aColor 10 = (1.0, 0.0, 0.0) ∧
    aColor 11 = (1.0, 1.0, 1.0) ∧
    aColor 12 = (1.0, 1.0, 0.0) ∧
    aColor 13 = (0.0, 1.0, 1.0) ∧
    aColor 14 = (1.0, 0.0, 1.0) ∧
    aColor 15 = (1.0, 1.0, 0.0) ∧
    aColor 16 = (0.0, 1.0, 1.0) ∧
    aColor 17 = (0.5, 0.5, 0.5) ∧
    aColor 18 = (0.0, 1.0, 1.0) ∧
    aColor 19 = (1.0, 0.0, 1.0) ∧
    aColor 20 = (0.5, 0.5, 0.5) ∧
    aColor 21 = (1.0, 0.0, 1.0) ∧
    aColor 22 = (1.0, 1.0, 0.0) ∧
    aColor 23 = (0.5, 0.5, 0.5) := by
  exact ⟨rfl, rfl, rfl, rfl, rfl, rfl, rfl, rfl, rfl, rfl, rfl, rfl,
    rfl, rfl, rfl, rfl, rfl, rfl, rfl, rfl, rfl, rfl, rfl, rfl⟩

theorem aNormal_values :
    aNormal 0 = (0.0, 0.0, 1.0) ∧
    aNormal 1 = (0.0, 0.0, 1.0) ∧
    aNormal 2 = (0.0, 0.0, 1.0) ∧
    aNormal 3 = (-0.5, -0.5, -0.5) ∧
    aNormal 4 = (-0.5, -0.5, -0.5) ∧
    aNormal 5 = (-0.5, -0.5, -0.5) ∧
    aNormal 6 = (0.5, 0.0, -0.5) ∧
    aNormal 7 = (0.5, 0.0, -0.5) ∧
    aNormal 8 = (0.5, 0.0, -0.5) ∧
    aNormal 9 = (0.0, 0.5, -0.5) ∧
    aNormal 10 = (0.0, 0.5, -0.5) ∧
    aNormal 11 = (0.0, 0.5, -0.5) ∧
    aNormal 12 = (0.0, 0.0, 1.0) ∧
    aNormal 13 = (0.0, 0.0, 1.0) ∧
    aNormal 14 = (0.0, 0.0, 1.0) ∧
    aNormal 15 = (-0.5, -0.5, -0.5) ∧
    aNormal 16 = (-0.5, -0.5, -0.5) ∧
    aNormal 17 = (-0.5, -0.5, -0.5) ∧
    aNormal 18 = (0.5, 0.0, -0.5) ∧
    aNormal 19 = (0.5, 0.0, -0.5) ∧
    aNormal 20 = (0.5, 0.0, -0.5) ∧
    aNormal 21 = (0.0, 0.5, -0.5) ∧
    aNormal 22 = (0.0, 0.5, -0.5) ∧
    aNormal 23 = (0.0, 0.5, -0.5) := by
  exact ⟨rfl, rfl, rfl, rfl, rfl, rfl, rfl, rfl, rfl, rfl, rfl, rfl,
    rfl, rfl, rfl, rfl, rfl, rfl, rfl, rfl, rfl, rfl, rfl, rfl⟩

theorem range_twelve : List.range 12 = [0, 1, 2, 3, 4, 5, 6, 7, 8, 9, 10, 11] := by
  decide

theorem range_four : Finset.range 4 = {0, 1, 2, 3} := by
  decide

theorem corners_of_pattern {P : Type} [DecidableEq P] (pos : Nat → P) (a b c d : P)
    (h : Pattern pos a b c d) : corners pos = {a, b, c, d} := by
  ext x
  simp only [corners, range_twelve, List.map_cons, List.map_nil, h.p0, h.p1, h.p2, h.p3, h.p4,
    h.p5, h.p6, h.p7, h.p8, h.p9, h.p10, h.p11, List.mem_toFinset, List.mem_cons,
    List.mem_nil_iff, Finset.mem_insert, Finset.mem_singleton, or_false]
  constructor
  · rintro (e | e | e | e | e | e | e | e | e | e | e | e) <;> simp [e]
  · rintro (e | e | e | e) <;> simp [e]

theorem faces_of_pattern {P : Type} [DecidableEq P] (pos : Nat → P) (a b c d : P)
    (h : Pattern pos a b c d) :
    face pos 0 = {a, b, c} ∧ face pos 1 = {a, b, d} ∧ face pos 2 = {b, c, d} ∧
      face pos 3 = {c, a, d} := by
  refine ⟨?_, ?_, ?_, ?_⟩
  · simp [face, h.p0, h.p1, h.p2]
  · simp [face, h.p3, h.p4, h.p5]
  · simp [face, h.p6, h.p7, h.p8]
  · simp [face, h.p9, h.p10, h.p11]

theorem card_corners_of_pattern {P : Type} [DecidableEq P] (pos : Nat → P) (a b c d : P)
    (h : Pattern pos a b c d) (hd : Distinct4 a b c d) : (corners pos).card = 4 := by
  rw [corners_of_pattern pos a b c d h]
  simp [Finset.card_insert_of_not_mem, hd.ab, hd.ac, hd.ad, hd.bc, hd.bd, hd.cd]

theorem faces_injective_of_pattern {P : Type} [DecidableEq P] (pos : Nat → P) (a b c d : P)
    (h : Pattern pos a b c d) (hd : Distinct4 a b c d) :
    ∀ t < 4, ∀ u < 4, face pos t = face pos u → t = u := by
  obtain ⟨f0, f1, f2, f3⟩ := faces_of_pattern pos a b c d h
  obtain ⟨hab, hac, had, hbc, hbd, hcd⟩ := hd
  intro t ht u hu e
  have ea := Finset.ext_iff.mp e a
  have eb := Finset.ext_iff.mp e b
  have ec := Finset.ext_iff.mp e c
  have ed := Finset.ext_iff.mp e d
  interval_cases t <;> interval_cases u <;> first
    | rfl
    | (simp [f0, f1, f2, f3, hab, hac, had, hbc, hbd, hcd, hab.symm, hac.symm, had.symm,
        hbc.symm, hbd.symm, hcd.symm] at ea eb ec ed)

theorem faces_eq_powersetCard_of_pattern {P : Type} [DecidableEq P] (pos : Nat → P)
    (a b c d : P) (h : Pattern pos a b c d) (hd : Distinct4 a b c d) :
    (Finset.range 4).image (face pos) = (corners pos).powersetCard 3 := by
  obtain ⟨f0, f1, f2, f3⟩ := faces_of_pattern pos a b c d h
  have hcorners := corners_of_pattern pos a b c d h
  have hcard := card_corners_of_pattern pos a b c d h hd
  have hinj := faces_injective_of_pattern pos a b c d h hd
  obtain ⟨hab, hac, had, hbc, hbd, hcd⟩ := hd
  apply Finset.eq_of_subset_of_card_le
  · intro s hs
    rw [range_four] at hs
    simp only [Finset.image_insert, Finset.image_singleton, Finset.mem_insert,
      Finset.mem_singleton, f0, f1, f2, f3] at hs
    rw [Finset.mem_powersetCard, hcorners]
    rcases hs with rfl | rfl | rfl | rfl
    · constructor
      · intro x hx
        simp only [Finset.mem_insert, Finset.mem_singleton] at hx ⊢
        rcases hx with e | e | e <;> simp [e]
      · simp [Finset.card_insert_of_not_mem, hab, hac, hbc]
    · constructor
      · intro x hx
        simp only [Finset.mem_insert, Finset.mem_singleton] at hx ⊢
        rcases hx with e | e | e <;> simp [e]
      · simp [Finset.card_insert_of_not_mem, hab, had, hbd]
    · constructor
      · intro x hx
        simp only [Finset.mem_insert, Finset.mem_singleton] at hx ⊢
        rcases hx with e | e | e <;> simp [e]
      · simp [Finset.card_insert_of_not_mem, hbc, hbd, hcd]
    · constructor
      · intro x hx
        simp only [Finset.mem_insert, Finset.mem_singleton] at hx ⊢
        rcases hx with e | e | e <;> simp [e]
      · simp [Finset.card_insert_of_not_mem, hac.symm, hcd, had]
  · rw [Finset.card_powersetCard, hcard, Finset.card_image_of_injOn]
    · simp
    · intro t ht u hu e
      exact hinj t (by simpa using ht) u (by simpa using hu) e

theorem edges_shared_of_pattern {P : Type} [DecidableEq P] (pos : Nat → P)
    (a b c d : P) (h : Pattern pos a b c d) (hd : Distinct4 a b c d) :
    ∀ p ∈ corners pos, ∀ q ∈ corners pos, p ≠ q →
      ((Finset.range 4).filter (fun t => p ∈ face pos t ∧ q ∈ face pos t)).card = 2 := by
  obtain ⟨f0, f1, f2, f3⟩ := faces_of_pattern pos a b c d h
  have hcorners := corners_of_pattern pos a b c d h
  obtain ⟨hab, hac, had, hbc, hbd, hcd⟩ := hd
  intro p hp q hq hpq
  rw [hcorners] at hp hq
  simp only [Finset.mem_insert, Finset.mem_singleton] at hp hq
  rw [range_four]
  rcases hp with rfl | rfl | rfl | rfl <;> rcases hq with rfl | rfl | rfl | rfl <;>
    first
      | exact absurd rfl hpq
      | (simp [Finset.filter_insert, Finset.filter_singleton, f0, f1, f2, f3, hab, hac, had,
          hbc, hbd, hcd, hab.symm, hac.symm, had.symm, hbc.symm, hbd.symm, hcd.symm])

theorem colours_of_pattern {P C : Type} (pos : Nat → P) (col : Nat → C)
    (a b c d : P) (ka kb kc kd : C) (h : Pattern pos a b c d) (hc : Pattern col ka kb kc kd)
    (hd : Distinct4 a b c d) :
    ∀ i < 12, ∀ j < 12, pos i = pos j → col i = col j := by
  obtain ⟨p0, p1, p2, p3, p4, p5, p6, p7, p8, p9, p10, p11⟩ := h
  obtain ⟨c0, c1, c2, c3, c4, c5, c6, c7, c8, c9, c10, c11⟩ := hc
  obtain ⟨hab, hac, had, hbc, hbd, hcd⟩ := hd
  intro i hi j hj e
  interval_cases i <;> interval_cases j <;>
    simp only [p0, p1, p2, p3, p4, p5, p6, p7, p8, p9, p10, p11] at e <;>
    first
      | (simp only [c0, c1, c2, c3, c4, c5, c6, c7, c8, c9, c10, c11]; done)
      | exact absurd e hab
      | exact absurd e hac
      | exact absurd e had
      | exact absurd e hbc
      | exact absurd e hbd
      | exact absurd e hcd
      | exact absurd e.symm hab
      | exact absurd e.symm hac
      | exact absurd e.symm had
      | exact absurd e.symm hbc
      | exact absurd e.symm hbd
      | exact absurd e.symm hcd

theorem tetrahedronMesh_of_pattern {P C : Type} [DecidableEq P] (pos : Nat → P)
    (col : Nat → C) (a b c d : P) (ka kb kc kd : C) (h : Pattern pos a b c d)
    (hc : Pattern col ka kb kc kd) (hd : Distinct4 a b c d) :
    IsTetrahedronMesh pos col :=
  ⟨card_corners_of_pattern pos a b c d h hd, faces_injective_of_pattern pos a b c d h hd,
    faces_eq_powersetCard_of_pattern pos a b c d h hd, edges_shared_of_pattern pos a b c d h hd,
    colours_of_pattern pos col a b c d ka kb kc kd h hc hd⟩

/-! ## Rotation matrix -/

/-- C1: when `cos(angle)^2 + sin(angle)^2 = 1`, the matrix `R` written by
`createRotationMatrixY` satisfies `R * Rᵀ = Rᵀ * R = identity`, both products computed by
`multiplyMatrices`, and its columns are pairwise orthogonal and of unit length. -/
theorem rotation_orthonormal {α : Type} [Field α] (L : Libm α) (angle : α)
    (matrix out : List α) (hm : matrix.length = 16) (ho : out.length = 16)
    (h : L.cos angle * L.cos angle + L.sin angle * L.sin angle = 1) :
    ∃ R, createRotationMatrixY L angle matrix = some R ∧
      multiplyMatrices R (transpose R) out = some identity ∧
      multiplyMatrices (transpose R) R out = some identity ∧
      ∀ j < 4, ∀ k < 4,
        ∑ i in Finset.range 4, entry R (i + 4 * j) * entry R (i + 4 * k)
          = if j = k then 1 else 0 := by
  refine ⟨_, createRotationMatrixY_eval L angle matrix hm, ?_, ?_, ?_⟩
  · rw [transpose_literal, multiplyMatrices_literal _ _ _ _ _ _ _ _ _ _ _ _ _ _ _ _ _ _ _ _ _ _
      _ _ _ _ _ _ _ _ _ _ out ho]
    simp only [identity, Option.some.injEq, List.cons.injEq, and_true]
    refine ⟨?_, ?_, ?_, ?_, ?_, ?_, ?_, ?_, ?_, ?_, ?_, ?_, ?_, ?_, ?_, ?_⟩ <;>
      first
        | linear_combination h
        | ring
  · rw [transpose_literal, multiplyMatrices_literal _ _ _ _ _ _ _ _ _ _ _ _ _ _ _ _ _ _ _ _ _ _
      _ _ _ _ _ _ _ _ _ _ out ho]
    simp only [identity, Option.some.injEq, List.cons.injEq, and_true]
    refine ⟨?_, ?_, ?_, ?_, ?_, ?_, ?_, ?_, ?_, ?_, ?_, ?_, ?_, ?_, ?_, ?_⟩ <;>
      first
        | linear_combination h
        | ring
  · intro j hj k hk
    simp only [Finset.sum_range_succ, Finset.sum_range_zero]
    interval_cases j <;> interval_cases k <;>
      first
        | (simp [entry]; done)
        | (simp [entry]; ring1)
        | (simp [entry]; linear_combination h)

theorem rotation_orthonormal_witness :
    sampleA.length = 16 ∧ sampleB.length = 16 ∧
    libmThreeFourFive.cos 1 * libmThreeFourFive.cos 1
      + libmThreeFourFive.sin 1 * libmThreeFourFive.sin 1 = 1 ∧
    ∃ R, createRotationMatrixY libmThreeFourFive 1 sampleA = some R ∧
      multiplyMatrices R (transpose R) sampleB = some identity ∧
      multiplyMatrices (transpose R) R sampleB = some identity ∧
      ∀ j < 4, ∀ k < 4,
        ∑ i in Finset.range 4, entry R (i + 4 * j) * entry R (i + 4 * k)
          = if j = k then 1 else 0 :=
  ⟨rfl, rfl, by norm_num [libmThreeFourFive],
    rotation_orthonormal libmThreeFourFive 1 sampleA sampleB rfl rfl
      (by norm_num [libmThreeFourFive])⟩

/-! ## Perspective matrix -/

/-- C2: the matrix `P` written by `createPerspectiveMatrix` sends `(x, y, -nearZ, 1)` to a
clip-space point with `w = nearZ` and `z / w = -1`, and `(x, y, -farZ, 1)` to one with
`w = farZ` and `z / w = 1`, for non-zero `aspect`, `tan(fov / 2)`, `nearZ`, `farZ` and
`nearZ ≠ farZ`. -/
theorem perspective_near_far {α : Type} [Field α] (L : Libm α) (fov aspect nearZ farZ x y : α)
    (matrix : List α) (hm : matrix.length = 16)
    (_haspect : aspect ≠ 0) (_htan : L.tan (fov / 2) ≠ 0)
    (hnear : nearZ ≠ 0) (hfar : farZ ≠ 0) (hne : nearZ ≠ farZ) :
    ∃ P, createPerspectiveMatrix L fov aspect nearZ farZ matrix = some P ∧
      (transformPoint P (x, y, -nearZ, 1)).2.2.2 = nearZ ∧
      (transformPoint P (x, y, -nearZ, 1)).2.2.1 / (transformPoint P (x, y, -nearZ, 1)).2.2.2
        = -1 ∧
      (transformPoint P (x, y, -farZ, 1)).2.2.2 = farZ ∧
      (transformPoint P (x, y, -farZ, 1)).2.2.1 / (transformPoint P (x, y, -farZ, 1)).2.2.2
        = 1 := by
  have hd : farZ - nearZ ≠ 0 := sub_ne_zero.mpr (Ne.symm hne)
  refine ⟨_, createPerspectiveMatrix_eval L fov aspect nearZ farZ matrix hm, ?_, ?_, ?_, ?_⟩
  · simp [transformPoint, entry]
  · simp only [transformPoint, entry, List.getD_cons_succ, List.getD_cons_zero]
    field_simp
    ring
  · simp [transformPoint, entry]
  · simp only [transformPoint, entry, List.getD_cons_succ, List.getD_cons_zero]
    field_simp
    ring

theorem perspective_near_far_witness :
    sampleA.length = 16 ∧ (800 / 600 : ℚ) ≠ 0 ∧ libmThreeFourFive.tan (1 / 2 / 2) ≠ 0 ∧
    (1 / 10 : ℚ) ≠ 0 ∧ (200 : ℚ) ≠ 0 ∧ (1 / 10 : ℚ) ≠ 200 ∧
    ∃ P, createPerspectiveMatrix libmThreeFourFive (1 / 2) (800 / 600) (1 / 10) 200 sampleA
        = some P ∧
      (transformPoint P (3, 7, -(1 / 10), 1)).2.2.2 = 1 / 10 ∧
      (transformPoint P (3, 7, -(1 / 10), 1)).2.2.1
          / (transformPoint P (3, 7, -(1 / 10), 1)).2.2.2 = -1 ∧
      (transformPoint P (3, 7, -200, 1)).2.2.2 = 200 ∧
      (transformPoint P (3, 7, -200, 1)).2.2.1 / (transformPoint P (3, 7, -200, 1)).2.2.2
        = 1 :=
  ⟨rfl, by norm_num, by norm_num [libmThreeFourFive], by norm_num, by norm_num, by norm_num,
    perspective_near_far libmThreeFourFive (1 / 2) (800 / 600) (1 / 10) 200 3 7 sampleA rfl
      (by norm_num) (by norm_num [libmThreeFourFive]) (by norm_num) (by norm_num)
      (by norm_num)⟩

/-! ## Shader status checks -/

/-- C3: once the window exists, `main` exits with code 0 for every combination of the three
shader status flags; outside the failure branches of the status checks it issues exactly
the calls of the run in which all three succeed; and standard error receives one line for
each flag that reports failure, and nothing else. -/
theorem shader_failures_logged_and_ignored (d : Driver)
    (hinit : d.initOk = true) (hwindow : d.windowOk = true) :
    (main d).exitCode = 0 ∧
    (main (allSucceed d)).exitCode = 0 ∧
    (main d).events.filter outsideReport = (main (allSucceed d)).events ∧
    stderrLines (main d).events
      = (if d.vertexCompiled then [] else ["Vertex shader compilation failed: " ++ d.vertexLog])
        ++ (if d.fragmentCompiled then []
            else ["Fragment shader compilation failed: " ++ d.fragmentLog])
        ++ (if d.programLinked then [] else ["Shader program linking failed: " ++ d.linkLog]) := by
  obtain ⟨i, w, v, f, l, vl, fl, ll, n⟩ := d
  simp only at hinit hwindow
  subst hinit hwindow
  refine ⟨rfl, rfl, ?_, ?_⟩
  · cases v <;> cases f <;> cases l <;>
      simp [main, allSucceed, statusCheck, List.filter_append, filter_renderLoop,
        filter_attribSetup, outsideReport, isFailureReport]
  · cases v <;> cases f <;> cases l <;>
      simp [main, statusCheck, stderrLines_append, stderrLines_renderLoop,
        stderrLines_attribSetup, stderrLines]

theorem shader_failures_logged_and_ignored_witness :
    sampleDriver.initOk = true ∧ sampleDriver.windowOk = true ∧
    (main sampleDriver).exitCode = 0 ∧
    (main (allSucceed sampleDriver)).exitCode = 0 ∧
    (main sampleDriver).events.filter outsideReport = (main (allSucceed sampleDriver)).events ∧
    stderrLines (main sampleDriver).events
      = (if sampleDriver.vertexCompiled then []
          else ["Vertex shader compilation failed: " ++ sampleDriver.vertexLog])
        ++ (if sampleDriver.fragmentCompiled then []
            else ["Fragment shader compilation failed: " ++ sampleDriver.fragmentLog])
        ++ (if sampleDriver.programLinked then []
            else ["Shader program linking failed: " ++ sampleDriver.linkLog]) :=
  ⟨rfl, rfl, shader_failures_logged_and_ignored sampleDriver rfl rfl⟩

/-! ## Buffer layout -/

set_option maxRecDepth 100000 in
/-- C4: the array `vertices` holds 216 floats, 24 records of stride 9; the attributes 0, 1
and 2 have 3 floats each at float offsets 0, 3 and 6, and every float of a record belongs to
exactly one of them; the draw ranges `(0, 12)` and `(12, 12)` lie inside the 24 vertices and
every vertex belongs to exactly one of them; every attribute fetch of a drawn vertex reads
inside the array. -/
theorem buffer_layout :
    vertices.length = 216 ∧ vertices.length = 24 * 9 ∧
    sizeofVertices = 24 * (9 * sizeofFloat) ∧
    vertexAttribs.map
        (fun a => (a.index, a.size, a.stride / sizeofFloat, a.pointer / sizeofFloat))
      = [(0, 3, 9, 0), (1, 3, 9, 3), (2, 3, 9, 6)] ∧
    (∀ a ∈ vertexAttribs, a.stride % sizeofFloat = 0 ∧ a.pointer % sizeofFloat = 0) ∧
    (∀ f < 9, (vertexAttribs.filter (fun a =>
        decide (a.pointer / sizeofFloat ≤ f ∧ f < a.pointer / sizeofFloat + a.size))).length
          = 1) ∧
    drawCalls = [⟨0, 12⟩, ⟨12, 12⟩] ∧
    (∀ v < 24, (drawCalls.filter (fun d =>
        decide (d.first ≤ v ∧ v < d.first + d.count))).length = 1) ∧
    (∀ d ∈ drawCalls, d.first + d.count ≤ 24) ∧
    (∀ d ∈ drawCalls, ∀ a ∈ vertexAttribs, ∀ v < d.first + d.count, ∀ c < a.size,
        fetchByte a v c + sizeofFloat ≤ sizeofVertices ∧
          fetchIndex a v c < vertices.length) := by
  refine ⟨by decide, by decide, by decide, by decide, by decide, by decide, by decide,
    by decide, by decide, ?_⟩
  decide

/-! ## Matrix product -/

/-- Counterexample to C5 as stated on `float` arrays: for the `float` matrices with first row
`(2^24, 1, -2^24, 0)` and first column `(1, 1, 1, 1)` the call stores `0` in `result[0]`,
while the sum over `k` of `a[4 * k] * b[k]` is `1`. -/
theorem multiplyMatrices_float_rounding :
    (∀ x ∈ roundingA ++ roundingB, roundF32 x = F32.finite x) ∧
    ∃ r, multiplyMatrices (floats roundingA) (floats roundingB) (floats roundingB) = some r ∧
      entry r 0 = F32.finite 0 ∧
      ∑ k in Finset.range 4, entry roundingA (0 + 4 * k) * entry roundingB (k + 4 * 0)
        = 1 ∧
      entry r 0
        ≠ F32.finite
            (∑ k in Finset.range 4,
              entry roundingA (0 + 4 * k) * entry roundingB (k + 4 * 0)) := by
  refine ⟨rounding_representable, _,
    multiplyMatrices_eval _ _ _ (length_floats roundingA) (length_floats roundingB)
      (length_floats roundingB), ?_, rounding_exact_sum, ?_⟩
  · rw [entry, List.getD_cons_zero]
    exact rounding_first_cell
  · rw [rounding_exact_sum, entry, List.getD_cons_zero, rounding_first_cell]
    intro h
    have h2 := F32.finite.inj h
    norm_num at h2

/-- C5 (amended): for 16-entry arrays `a`, `b` and any 16-entry output array,
`multiplyMatrices` returns (no access falls outside an array) a 16-entry array whose entry
`i + 4 * j` is the running sum that starts at `0` and adds `a[i + 4 * k] * b[k + 4 * j]` for
`k = 0, 1, 2, 3` in this order, with the sum and product of the element type (rounded at
every step for `float`), whatever the output array held; in exact arithmetic (a field) this
entry is the sum over `k < 4` of `a[i + 4 * k] * b[k + 4 * j]`. -/
theorem multiplyMatrices_correct :
    (∀ (α : Type) [Zero α] [Add α] [Mul α] (a b result : List α),
      a.length = 16 → b.length = 16 → result.length = 16 →
      ∃ r, multiplyMatrices a b result = some r ∧ r.length = 16 ∧
        ∀ i j, i < 4 → j < 4 →
          entry r (i + 4 * j)
            = (List.range 4).foldl
                (fun acc k => acc + entry a (i + 4 * k) * entry b (k + 4 * j)) 0) ∧
    (∀ (α : Type) [Field α] (a b result : List α),
      a.length = 16 → b.length = 16 → result.length = 16 →
      ∃ r, multiplyMatrices a b result = some r ∧ r.length = 16 ∧
        ∀ i j, i < 4 → j < 4 →
          entry r (i + 4 * j)
            = ∑ k in Finset.range 4, entry a (i + 4 * k) * entry b (k + 4 * j)) := by
  constructor
  · intro α _ _ _ a b result ha hb hr
    refine ⟨_, multiplyMatrices_eval a b result ha hb hr, rfl, ?_⟩
    intro i j hi hj
    interval_cases i <;> interval_cases j <;> rfl
  · intro α _ a b result ha hb hr
    refine ⟨_, multiplyMatrices_eval a b result ha hb hr, rfl, ?_⟩
    intro i j hi hj
    simp only [Finset.sum_range_succ, Finset.sum_range_zero]
    interval_cases i <;> interval_cases j <;> rfl

theorem multiplyMatrices_correct_witness :
    (floats roundingA).length = 16 ∧ (floats roundingB).length = 16 ∧
    sampleA.length = 16 ∧ sampleB.length = 16 ∧ (identity : List ℚ).length = 16 ∧
    (∃ r, multiplyMatrices (floats roundingA) (floats roundingB) (floats roundingB) = some r ∧
      r.length = 16 ∧
      ∀ i j, i < 4 → j < 4 →
        entry r (i + 4 * j)
          = (List.range 4).foldl
              (fun acc k =>
                acc + entry (floats roundingA) (i + 4 * k) * entry (floats roundingB) (k + 4 * j))
              0) ∧
    (∃ r, multiplyMatrices sampleA sampleB identity = some r ∧ r.length = 16 ∧
      ∀ i j, i < 4 → j < 4 →
        entry r (i + 4 * j)
          = ∑ k in Finset.range 4, entry sampleA (i + 4 * k) * entry sampleB (k + 4 * j)) :=
  ⟨length_floats roundingA, length_floats roundingB, rfl, rfl, rfl,
    multiplyMatrices_correct.1 F32 (floats roundingA) (floats roundingB) (floats roundingB)
      (length_floats roundingA) (length_floats roundingB) (length_floats roundingB),
    multiplyMatrices_correct.2 ℚ sampleA sampleB identity rfl rfl rfl⟩

/-! ## Model transform -/

/-- C6: `multiplyMatrices(T, R, out)` with `T = createTranslationMatrix(x, y, z)` and
`R = createRotationMatrixY(angle)` is the matrix with the Y-rotation block in its upper-left
3x3 corner, last column `(x, y, z, 1)` and bottom row `(0, 0, 0, 1)`; it sends
`(px, py, pz, 1)` to `(c * px + s * pz + x, py + y, -s * px + c * pz + z, 1)`. -/
theorem model_transform_rotate_then_translate {α : Type} [Field α] (L : Libm α)
    (x y z angle px py pz : α) (tBuf rBuf outBuf : List α)
    (ht : tBuf.length = 16) (hr : rBuf.length = 16) (ho : outBuf.length = 16) :
    ∃ M, modelTransform L x y z angle tBuf rBuf outBuf = some M ∧
      M = [L.cos angle, 0, -L.sin angle, 0, 0, 1, 0, 0,
           L.sin angle, 0, L.cos angle, 0, x, y, z, 1] ∧
      transformPoint M (px, py, pz, 1)
        = (L.cos angle * px + L.sin angle * pz + x, py + y,
           -L.sin angle * px + L.cos angle * pz + z, 1) := by
  have hM : modelTransform L x y z angle tBuf rBuf outBuf
      = some [L.cos angle, 0, -L.sin angle, 0, 0, 1, 0, 0,
              L.sin angle, 0, L.cos angle, 0, x, y, z, 1] := by
    unfold modelTransform
    rw [createTranslationMatrix_eval x y z tBuf ht, createRotationMatrixY_eval L angle rBuf hr]
    simp only [Option.bind_eq_bind, Option.some_bind]
    rw [multiplyMatrices_literal _ _ _ _ _ _ _ _ _ _ _ _ _ _ _ _ _ _ _ _ _ _ _ _ _ _ _ _ _ _ _ _
      outBuf ho]
    simp
  refine ⟨_, hM, rfl, ?_⟩
  simp only [transformPoint, entry, List.getD_cons_succ, List.getD_cons_zero, Prod.mk.injEq]
  refine ⟨?_, ?_, ?_, ?_⟩ <;> ring

theorem model_transform_rotate_then_translate_witness :
    sampleA.length = 16 ∧ sampleB.length = 16 ∧ (identity : List ℚ).length = 16 ∧
    ∃ M, modelTransform libmThreeFourFive 0 0 (-5) 1 sampleA sampleB identity = some M ∧
      M = [libmThreeFourFive.cos 1, 0, -libmThreeFourFive.sin 1, 0, 0, 1, 0, 0,
           libmThreeFourFive.sin 1, 0, libmThreeFourFive.cos 1, 0, 0, 0, -5, 1] ∧
      transformPoint M (1, 2, 3, 1)
        = (libmThreeFourFive.cos 1 * 1 + libmThreeFourFive.sin 1 * 3 + 0, 2 + 0,
           -libmThreeFourFive.sin 1 * 1 + libmThreeFourFive.cos 1 * 3 + -5, 1) :=
  ⟨rfl, rfl, rfl, model_transform_rotate_then_translate libmThreeFourFive 0 0 (-5) 1 1 2 3
    sampleA sampleB identity rfl rfl rfl⟩

/-! ## Orbit of the second pyramid -/

/-- C7: the offset computed in the render loop has `orbitX = orbitZ` for every time value,
so it lies on the diagonal `x = z`; at a quarter turn (`sin = 1`, `cos = 0`, time value
about `11/7`) it is `(4, 0, 4)`, where `orbitX^2 + orbitZ^2` is 32 and not 16. -/
theorem orbit_offset_on_diagonal :
    (∀ (L : Libm ℚ) (timeValue : ℚ),
      (orbitOffset L timeValue).1 = (orbitOffset L timeValue).2.2) ∧
    orbitOffset libmQuarterTurn (11 / 7) = (4, 0, 4) ∧
    (orbitOffset libmQuarterTurn (11 / 7)).1 * (orbitOffset libmQuarterTurn (11 / 7)).1
      + (orbitOffset libmQuarterTurn (11 / 7)).2.2
        * (orbitOffset libmQuarterTurn (11 / 7)).2.2 = 32 ∧
    (orbitOffset libmQuarterTurn (11 / 7)).1 * (orbitOffset libmQuarterTurn (11 / 7)).1
      + (orbitOffset libmQuarterTurn (11 / 7)).2.2
        * (orbitOffset libmQuarterTurn (11 / 7)).2.2 ≠ 16 := by
  refine ⟨fun L t => rfl, ?_, ?_, ?_⟩ <;> norm_num [orbitOffset, libmQuarterTurn]

/-! ## Normals -/

/-- C8: the stored normal is a normal of its face only for the first face of each
tetrahedron (triangles 0 and 4); for the six other triangles it is not perpendicular to the
edges, for instance the normal of triangle 1 has dot product `-1/2` with its first edge. -/
theorem face_normals_perpendicular_only_on_first_faces :
    IsFaceNormal 0 ∧ ¬ IsFaceNormal 1 ∧ ¬ IsFaceNormal 2 ∧ ¬ IsFaceNormal 3 ∧
    IsFaceNormal 4 ∧ ¬ IsFaceNormal 5 ∧ ¬ IsFaceNormal 6 ∧ ¬ IsFaceNormal 7 ∧
    dot3 (aNormal 3) (edge1 1) = -(1 / 2) := by
  obtain ⟨p0, p1, p2, p3, p4, p5, p6, p7, p8, p9, p10, p11, p12, p13, p14, p15, p16, p17,
    p18, p19, p20, p21, p22, p23⟩ := aPos_values
  obtain ⟨n0, n1, n2, n3, n4, n5, n6, n7, n8, n9, n10, n11, n12, n13, n14, n15, n16, n17,
    n18, n19, n20, n21, n22, n23⟩ := aNormal_values
  refine ⟨?_, ?_, ?_, ?_, ?_, ?_, ?_, ?_, ?_⟩ <;>
    norm_num [IsFaceNormal, edge1, edge2, dot3, sub3, p0, p1, p2, p3, p4, p5, p6, p7, p8, p9,
      p10, p11, p12, p13, p14, p15, p16, p17, p18, p19, p20, p21, p22, p23, n0, n1, n2, n3,
      n4, n5, n6, n7, n8, n9, n10, n11, n12, n13, n14, n15, n16, n17, n18, n19, n20, n21,
      n22, n23]

/-! ## Tetrahedra -/

/-- C9: each of the two 12-vertex groups has exactly 4 distinct positions, its 4 triangles
are pairwise distinct and are exactly the 3-element subsets of those positions, every pair
of distinct positions lies on exactly two triangles, equal positions carry equal colours,
and the 4 positions are not coplanar. -/
theorem two_tetrahedra : IsTetrahedron 0 ∧ IsTetrahedron 1 := by
  obtain ⟨p0, p1, p2, p3, p4, p5, p6, p7, p8, p9, p10, p11, p12, p13, p14, p15, p16, p17,
    p18, p19, p20, p21, p22, p23⟩ := aPos_values
  obtain ⟨c0, c1, c2, c3, c4, c5, c6, c7, c8, c9, c10, c11, c12, c13, c14, c15, c16, c17,
    c18, c19, c20, c21, c22, c23⟩ := aColor_values
  have hp0 : Pattern (groupPos 0) (-0.5, -0.5, 0.0) (0.5, -0.5, 0.0) (0.0, 0.5, 0.0)
      (0.0, 0.0, -0.5) := ⟨p0, p1, p2, p3, p4, p5, p6, p7, p8, p9, p10, p11⟩
  have hc0 : Pattern (groupColor 0) (1.0, 0.0, 0.0) (0.0, 1.0, 0.0) (0.0, 0.0, 1.0)
      (1.0, 1.0, 1.0) := ⟨c0, c1, c2, c3, c4, c5, c6, c7, c8, c9, c10, c11⟩
  have hd0 : Distinct4 ((-0.5 : ℚ), (-0.5 : ℚ), (0.0 : ℚ)) (0.5, -0.5, 0.0) (0.0, 0.5, 0.0)
      (0.0, 0.0, -0.5) := by
    constructor <;> norm_num
  have hp1 : Pattern (groupPos 1) (-0.3, -0.3, -0.7) (0.3, -0.3, -0.7) (0.0, 0.3, -0.7)
      (0.0, 0.0, -1.2) := ⟨p12, p13, p14, p15, p16, p17, p18, p19, p20, p21, p22, p23⟩
  have hc1 : Pattern (groupColor 1) (1.0, 1.0, 0.0) (0.0, 1.0, 1.0) (1.0, 0.0, 1.0)
      (0.5, 0.5, 0.5) := ⟨c12, c13, c14, c15, c16, c17, c18, c19, c20, c21, c22, c23⟩
  have hd1 : Distinct4 ((-0.3 : ℚ), (-0.3 : ℚ), (-0.7 : ℚ)) (0.3, -0.3, -0.7) (0.0, 0.3, -0.7)
      (0.0, 0.0, -1.2) := by
    constructor <;> norm_num
  refine ⟨⟨tetrahedronMesh_of_pattern _ _ _ _ _ _ _ _ _ _ hp0 hc0 hd0, ?_, ?_⟩,
    ⟨tetrahedronMesh_of_pattern _ _ _ _ _ _ _ _ _ _ hp1 hc1 hd1, ?_, ?_⟩⟩
  · rw [corners_of_pattern _ _ _ _ _ hp0, hp0.p0, hp0.p1, hp0.p2, hp0.p5]
  · rw [hp0.p0, hp0.p1, hp0.p2, hp0.p5]
    norm_num [det3, sub3]
  · rw [corners_of_pattern _ _ _ _ _ hp1, hp1.p0, hp1.p1, hp1.p2, hp1.p5]
  · rw [hp1.p0, hp1.p1, hp1.p2, hp1.p5]
    norm_num [det3, sub3]

/-! ## View matrix -/

/-- C10: `createViewMatrix(eye)` writes the same sixteen entries as
`createTranslationMatrix(-eye)`; its products with `createTranslationMatrix(eye)`, in
either order, are the identity; it sends `(eyeX, eyeY, eyeZ, 1)` to `(0, 0, 0, 1)`. -/
theorem view_matrix_inverse_translation {α : Type} [Field α] (eyeX eyeY eyeZ : α)
    (vBuf nBuf tBuf out : List α) (hv : vBuf.length = 16) (hn : nBuf.length = 16)
    (ht : tBuf.length = 16) (ho : out.length = 16) :
    ∃ V T, createViewMatrix eyeX eyeY eyeZ vBuf = some V ∧
      createTranslationMatrix (-eyeX) (-eyeY) (-eyeZ) nBuf = some V ∧
      createTranslationMatrix eyeX eyeY eyeZ tBuf = some T ∧
      multiplyMatrices V T out = some identity ∧
      multiplyMatrices T V out = some identity ∧
      transformPoint V (eyeX, eyeY, eyeZ, 1) = (0, 0, 0, 1) := by
  refine ⟨_, _, createViewMatrix_eval eyeX eyeY eyeZ vBuf hv,
    createTranslationMatrix_eval (-eyeX) (-eyeY) (-eyeZ) nBuf hn,
    createTranslationMatrix_eval eyeX eyeY eyeZ tBuf ht, ?_, ?_, ?_⟩
  · rw [multiplyMatrices_literal _ _ _ _ _ _ _ _ _ _ _ _ _ _ _ _ _ _ _ _ _ _ _ _ _ _ _ _ _ _ _ _
      out ho]
    simp [identity]
  · rw [multiplyMatrices_literal _ _ _ _ _ _ _ _ _ _ _ _ _ _ _ _ _ _ _ _ _ _ _ _ _ _ _ _ _ _ _ _
      out ho]
    simp [identity]
  · simp [transformPoint, entry]

theorem view_matrix_inverse_translation_witness :
    sampleA.length = 16 ∧ sampleB.length = 16 ∧ (identity : List ℚ).length = 16 ∧
    ∃ V T, createViewMatrix (0 : ℚ) 1 20 sampleA = some V ∧
      createTranslationMatrix (-(0 : ℚ)) (-1) (-20) sampleB = some V ∧
      createTranslationMatrix (0 : ℚ) 1 20 identity = some T ∧
      multiplyMatrices V T sampleA = some identity ∧
      multiplyMatrices T V sampleA = some identity ∧
      transformPoint V ((0 : ℚ), 1, 20, 1) = (0, 0, 0, 1) :=
  ⟨rfl, rfl, rfl,
    view_matrix_inverse_translation 0 1 20 sampleA sampleB identity sampleA rfl rfl rfl rfl⟩

end MovingTriangles
